import Mathlib

/-!
Verification of the train-departures proxy (`src/index.ts`).

The source is a single Express route `GET /departures/:stationCode` plus three
helpers (`getStationName`, `getWeather`, `checkApiKey`, `formatTime`) and a
`NodeCache` instance.  We embed the request handler as a pure function from
the request, the environment, the four upstream fetch results, the current
wall-clock time and the cache state to an HTTP response and the new cache
state.  External library behaviours (lodash `toInteger`/`take`/`isArray`,
JavaScript `String.prototype.replace`/`split`, `Number` parsing, lodash
`round`) are embedded by small executable Lean functions that mirror the
documented JavaScript semantics on the inputs the program can feed them.
`formatTime` (a thin wrapper over `Date.toLocaleTimeString` with the
`Europe/Rome` time zone) is kept abstract: every theorem quantifies over the
function `fmtTime`, since no claim depends on the concrete digits it prints.
-/

namespace TrainApi

/-! ### JavaScript string helpers -/

/-- `String.prototype.replace(pat, rep)` with a string pattern replaces only
the first occurrence of `pat` (here `pat` is always nonempty).  List form. -/
def replaceFirstList (pat rep : List Char) : List Char → List Char
  | [] => []
  | c :: rest =>
    if pat.isPrefixOf (c :: rest) then rep ++ (c :: rest).drop pat.length
    else c :: replaceFirstList pat rep rest

/-- `s.replace(pat, rep)` for string pattern `pat`: first occurrence only. -/
def jsReplaceFirst (s pat rep : String) : String :=
  ⟨replaceFirstList pat.toList rep.toList s.toList⟩

/-- `s.split(' ')[0]`: the characters before the first space (the whole
string when it has no space). -/
def jsSplitHeadSpace (s : String) : String :=
  ⟨s.toList.takeWhile (fun c => c ≠ ' ')⟩

/-! ### JavaScript number parsing (`Number(s)`, lodash `toInteger`)

`toInteger(x)` is `toFinite(toNumber(x))` truncated toward zero; `toNumber`
of a string is JavaScript `Number(s)` (`NaN` for non-numeric text, `0` for
the empty string), and `NaN` is mapped to `0` by `toFinite`.  We model the
decimal forms `[+|-] digits [. digits]` and `[+|-] . digits`; any other
nonempty string is non-numeric (`none`, i.e. `NaN`). -/

def digitVal (c : Char) : Option ℕ :=
  if c.isDigit then some (c.toNat - '0'.toNat) else none

/-- Fold a nonempty all-digit list to its value; `none` otherwise. -/
def parseDigits (cs : List Char) : Option ℕ :=
  match cs with
  | [] => none
  | _ =>
    cs.foldl (fun acc c =>
      match acc, digitVal c with
      | some a, some d => some (a * 10 + d)
      | _, _ => none) (some 0)

/-- Unsigned decimal numeral: `digits`, `digits.digits`, `digits.`, or
`.digits`. -/
def parseUnsigned (cs : List Char) : Option ℚ :=
  let intPart := cs.takeWhile Char.isDigit
  let rest := cs.dropWhile Char.isDigit
  match rest with
  | [] => (parseDigits intPart).map (fun n => (n : ℚ))
  | '.' :: frac =>
    if intPart = [] ∧ frac = [] then none
    else if frac = [] then (parseDigits intPart).map (fun n => (n : ℚ))
    else
      match parseDigits frac with
      | none => none
      | some f =>
        let i := (parseDigits intPart).getD 0
        some ((i : ℚ) + (f : ℚ) / ((10 : ℚ) ^ frac.length))
  | _ => none

/-- JavaScript `Number(s)` on the decimal fragment we model; `none` = `NaN`. -/
def jsToNumber (s : String) : Option ℚ :=
  match s.toList with
  | [] => some 0
  | '+' :: rest => parseUnsigned rest
  | '-' :: rest => (parseUnsigned rest).map Neg.neg
  | cs => parseUnsigned cs

/-- Truncation toward zero, as JavaScript `value - value % 1`. -/
def jsTrunc (q : ℚ) : ℤ :=
  if q < 0 then -⌊-q⌋ else ⌊q⌋

/-- lodash `toInteger` applied to the optional `limit` query parameter
(`toInteger(undefined) = 0`, `NaN ↦ 0`). -/
def jsToInteger (limit : Option String) : ℤ :=
  match limit with
  | none => 0
  | some s =>
    match jsToNumber s with
    | none => 0
    | some q => jsTrunc q

/-- JavaScript truthiness of the optional `limit` string (`undefined` and
`""` are falsy). -/
def limitTruthy : Option String → Bool
  | none => false
  | some s => s ≠ ""

/-! ### Formatter pieces from the source -/

/-- The delay mapping from the handler:
`(train.ritardo >= 0 ? `+${train.ritardo}` : train.ritardo).toString()`. -/
def formatDelay (d : ℤ) : String :=
  if d ≥ 0 then "+" ++ toString d else toString d

/-- JavaScript `Math.round` (half toward positive infinity) on our rational
model of the float. -/
def jsMathRound (q : ℚ) : ℤ := ⌊q + 1 / 2⌋

/-- lodash `round(temp, 1)`: the value rounded to one decimal, as the integer
number of tenths. -/
def roundTenths (q : ℚ) : ℤ := jsMathRound (q * 10)

/-- JavaScript `toString` of a number that is an integer multiple of one
tenth: no decimal point when the fraction is zero, one decimal digit
otherwise (`String(-0) = "0"`). -/
def decimalOfTenths (n : ℤ) : String :=
  let sign := if n < 0 then "-" else ""
  let m := n.natAbs
  if m % 10 = 0 then sign ++ toString (m / 10)
  else sign ++ toString (m / 10) ++ "." ++ toString (m % 10)

/-- The temperature string built in `getWeather`:
`` `${round(temp, 1)}°C`.replace('.', ',') ``. -/
def formatTemperature (temp : ℚ) : String :=
  jsReplaceFirst (decimalOfTenths (roundTenths temp) ++ "°C") "." ","

/-! ### Data model -/

/-- The `Departure` type of the source. -/
structure Departure where
  type : String
  destination : String
  departureTime : String
  delay : String
deriving Repr, DecidableEq

/-- One well-formed raw train record from the Viaggiatreno `partenze`
payload, with the four fields the handler reads.  `orarioPartenza` is an
epoch-millisecond timestamp; `ritardo` the delay in minutes. -/
structure RawTrain where
  compNumeroTreno : String
  destinazione : String
  orarioPartenza : ℤ
  ritardo : ℤ
deriving Repr, DecidableEq

/-- The `.map` body building `simplifiedTrains`; `fmtTime` stands for
`formatTime` (abstract rendering of a timestamp). -/
def mapTrain (fmtTime : ℤ → Bool → String) (t : RawTrain) : Departure :=
  { type := jsReplaceFirst t.compNumeroTreno "REG" "R"
    destination := jsSplitHeadSpace t.destinazione
    departureTime := fmtTime t.orarioPartenza false
    delay := formatDelay t.ritardo }

/-- The weather record cached and returned by `getWeather`. -/
structure Weather where
  temperature : String
  description : String
deriving Repr, DecidableEq

/-- The response object assembled on a cache miss and stored in the cache
(the `time` field is deliberately absent: it is stamped fresh per response). -/
structure DepResponse where
  stationName : String
  weather : Weather
  departures : List Departure
deriving Repr, DecidableEq

/-- Values stored in the single `NodeCache` instance.  The store is untyped
in JavaScript; the three key families (`station_name_*`, `weather_*`,
`departures_*`) are pairwise disjoint, so each key only ever holds its own
kind of value. -/
inductive CVal where
  | str (s : String)
  | weather (w : Weather)
  | deps (d : DepResponse)
deriving Repr, DecidableEq

/-! ### The cache (`NodeCache`: per-entry TTL in seconds, lazy expiry) -/

structure CacheEntry where
  value : CVal
  expiresAt : ℕ
deriving Repr, DecidableEq

/-- The cache as a partial map from keys; time is epoch milliseconds. -/
structure Cache where
  entries : String → Option CacheEntry

/-- `cache.get(key)`: the stored value while not expired (`ts < Date.now()`
means expired, so the entry is live while `now ≤ expiresAt`). -/
def Cache.get (c : Cache) (k : String) (now : ℕ) : Option CVal :=
  match c.entries k with
  | some e => if now ≤ e.expiresAt then some e.value else none
  | none => none

/-- `cache.set(key, value, ttlSeconds)` at wall-clock `now` (milliseconds). -/
def Cache.set (c : Cache) (k : String) (v : CVal) (ttlSeconds now : ℕ) : Cache :=
  ⟨fun k' => if k' = k then some ⟨v, now + ttlSeconds * 1000⟩ else c.entries k'⟩

/-- The empty cache. -/
def Cache.empty : Cache := ⟨fun _ => none⟩

/-! ### Upstream fetch results

Each outbound `axios` call either throws (network/HTTP error, modelled as
`Except.error ()`) or yields a payload.  The payload shape checks the code
performs are reflected in the payload types. -/

/-- The Viaggiatreno `partenze` payload: either a well-formed array of train
records, or anything that is not an array (object, `null`, a string, …),
which is exactly what the code's `isArray` guard distinguishes. -/
inductive TrainsPayload where
  | arr (trains : List RawTrain)
  | notArray
deriving Repr, DecidableEq

/-- Raw weather payload fields the code reads (`main.temp` in Celsius as a
rational model of the float, and `weather[0].description`). -/
structure WeatherRaw where
  temp : ℚ
  description : String
deriving Repr, DecidableEq

/-- The four upstream results a single request can consume.  For the
region / station-detail lookups, `Except.ok none` models a response whose
shape fails the code's validity check (falsy or wrongly-typed region, missing
`localita.nomeLungo`), which makes `getStationName` throw internally;
`Except.ok (some x)` is a valid value. -/
structure Upstream where
  trains : Except Unit TrainsPayload
  region : Except Unit (Option String)
  details : Except Unit (Option String)
  weather : Except Unit WeatherRaw

/-- Environment after `cleanEnv`: `API_KEY` defaults to `""` (unset),
`OPENWEATHER_API_KEY` is required. -/
structure Env where
  apiKey : String
  openweatherKey : String

/-! ### `getStationName`

Two-step lookup with a 24-hour cache and a catch-all fallback to the raw
station code.  It never throws: any error inside the `try` lands in the
`catch`, which returns `stationCode`. -/

def getStationName (up : Upstream) (c : Cache) (stationCode : String) (now : ℕ) :
    String × Cache :=
  match c.get ("station_name_" ++ stationCode) now with
  | some (.str name) => (name, c)
  | _ =>
    match up.region with
    | .error _ => (stationCode, c)
    | .ok none => (stationCode, c)
    | .ok (some _region) =>
      match up.details with
      | .error _ => (stationCode, c)
      | .ok none => (stationCode, c)
      | .ok (some name) =>
        (name, c.set ("station_name_" ++ stationCode) (.str name) 86400 now)

/-! ### `getWeather`

5-minute cache; throws (propagating to the route's `catch`) when the
OpenWeather key is missing or the fetch fails. -/

def getWeather (env : Env) (up : Upstream) (c : Cache) (city : String) (now : ℕ) :
    Except Unit (Weather × Cache) :=
  match c.get ("weather_" ++ city) now with
  | some (.weather w) => .ok (w, c)
  | _ =>
    if env.openweatherKey = "" then .error ()
    else
      match up.weather with
      | .error _ => .error ()
      | .ok raw =>
        let w : Weather :=
          { temperature := formatTemperature raw.temp
            description := raw.description }
        .ok (w, c.set ("weather_" ++ city) (.weather w) 300 now)

/-! ### The HTTP layer -/

/-- A response body: an error object `{ error: msg }`, a bare JSON array
(the `res.json([])` branch), or the composed departures payload. -/
inductive Body where
  | errObj (msg : String)
  | rawArr (xs : List Departure)
  | payload (time stationName : String) (w : Weather) (departures : List Departure)
deriving Repr, DecidableEq

structure HttpResponse where
  status : ℕ
  body : Body
deriving Repr, DecidableEq

/-- A request to `GET /departures/:stationCode`: the path parameter and the
`limit` and `key` query parameters (absent = `none`). -/
structure Req where
  stationCode : String
  limit : Option String
  key : Option String

/-- The `checkApiKey` middleware as a predicate: `true` means the request
passes on to the route handler.  With no configured key the gate is a no-op;
otherwise the `key` query parameter must equal the configured key (a missing
parameter is `undefined`, which never equals a nonempty string). -/
def checkApiKey (apiKey : String) (key : Option String) : Bool :=
  if apiKey = "" then true
  else match key with
    | some k => k = apiKey
    | none => false

/-- The truncation expression the route repeats on both the hit and the miss
path: `maxResults > 0 ? take(trains, maxResults) : trains` with
`maxResults = toInteger(limit)`. -/
def applyLimit (limit : Option String) (l : List Departure) : List Departure :=
  if 0 < jsToInteger limit then l.take (jsToInteger limit).toNat else l

/-- The route handler body (everything after the `checkApiKey` middleware),
as a pure function of the request, upstream results, time and cache. -/
def processRequest (fmtTime : ℤ → Bool → String) (env : Env) (up : Upstream)
    (req : Req) (now : ℕ) (c : Cache) : HttpResponse × Cache :=
  if req.stationCode = "" then
    (⟨400, .errObj "Station code is required."⟩, c)
  else if limitTruthy req.limit ∧ jsToInteger req.limit < 1 then
    (⟨400, .errObj "Limit must be a positive number."⟩, c)
  else
    match c.get ("departures_" ++ req.stationCode) now with
    | some (.deps d) =>
      (⟨200, .payload (fmtTime now true) d.stationName d.weather
        (applyLimit req.limit d.departures)⟩, c)
    | _ =>
      match up.trains with
      | .error _ =>
        (⟨500, .errObj "Failed to fetch train data from the external API."⟩, c)
      | .ok .notArray =>
        (⟨200, .rawArr []⟩, c)
      | .ok (.arr rawTrains) =>
        let simplifiedTrains := rawTrains.map (mapTrain fmtTime)
        let sn := getStationName up c req.stationCode now
        match getWeather env up sn.2 "Bologna" now with
        | .error _ =>
          (⟨500, .errObj "Failed to fetch train data from the external API."⟩, sn.2)
        | .ok wc =>
          (⟨200, .payload (fmtTime now true) sn.1 wc.1
            (applyLimit req.limit simplifiedTrains)⟩,
           wc.2.set ("departures_" ++ req.stationCode)
             (.deps ⟨sn.1, wc.1, simplifiedTrains⟩) 60 now)

/-- The full route: `checkApiKey` middleware, then the handler body. -/
def handler (fmtTime : ℤ → Bool → String) (env : Env) (up : Upstream)
    (req : Req) (now : ℕ) (c : Cache) : HttpResponse × Cache :=
  if checkApiKey env.apiKey req.key then
    processRequest fmtTime env up req now c
  else
    (⟨401, .errObj "Invalid or missing API key."⟩, c)

/-! ### Remaining definitions used by the statements below -/

/-- `pat` occurs in `s` starting at position `i`. -/
def occursAt (pat s : List Char) (i : ℕ) : Prop :=
  pat.isPrefixOf (s.drop i) = true

instance (pat s : List Char) (i : ℕ) : Decidable (occursAt pat s i) := by
  unfold occursAt
  infer_instance

/-- The temperature string following the spec's description: the Celsius
value rounded to one decimal place, rendered as a decimal numeral whose
decimal point is replaced by a comma, with the unit suffix `°C` appended
afterwards. -/
def specTemperature (temp : ℚ) : String :=
  jsReplaceFirst (decimalOfTenths (roundTenths temp)) "." "," ++ "°C"

/-- The `departures` field of a response body, when the body is the composed
payload object; a bare-array or error body has no such field. -/
def bodyDeparturesField : Body → Option (List Departure)
  | .payload _ _ _ d => some d
  | _ => none

/-- Station-name resolution fails: the region step errors or returns an
invalid shape, or the detail step errors or lacks a usable name. -/
def stationLookupFailed (up : Upstream) : Prop :=
  (up.region = .error () ∨ up.region = .ok none) ∨
  (up.details = .error () ∨ up.details = .ok none)

/-! ### Concrete fixtures used by the witnesses -/

/-- A concrete stand-in for `formatTime` (the theorems hold for every
rendering function). -/
def f0 : ℤ → Bool → String := fun _ _ => ""

/-- Environment with no inbound API key configured. -/
def env0 : Env := ⟨"", "owkey"⟩

/-- Environment with an inbound API key configured. -/
def envAuth : Env := ⟨"secret", "owkey"⟩

def raw0 : WeatherRaw := ⟨52 / 10, "cielo sereno"⟩

def w0 : Weather := ⟨formatTemperature (52 / 10), "cielo sereno"⟩

def t5 : RawTrain := ⟨"REG 2463", "BOLOGNA CENTRALE", 1700000000000, 5⟩

def tm2 : RawTrain := ⟨"IC 500", "MILANO CENTRALE", 1700000000000, -2⟩

/-- Upstream where the departures fetch yields a two-train array but the
station-name lookup errors out. -/
def up0 : Upstream := ⟨.ok (.arr [t5, tm2]), .error (), .error (), .ok raw0⟩

/-- Upstream where the departures fetch yields a non-array payload. -/
def upNA : Upstream := ⟨.ok .notArray, .error (), .error (), .ok raw0⟩

def req0 : Req := ⟨"S01700", none, none⟩

/-! ### Basic cache lemmas -/

theorem Cache.get_set_same (c : Cache) (k : String) (v : CVal) (ttl now now' : ℕ)
    (h : now' ≤ now + ttl * 1000) :
    (c.set k v ttl now).get k now' = some v := by
  simp [Cache.get, Cache.set, h]

theorem Cache.get_set_ne (c : Cache) (k k' : String) (v : CVal) (ttl now now' : ℕ)
    (h : k' ≠ k) :
    (c.set k v ttl now).get k' now' = c.get k' now' := by
  simp [Cache.get, Cache.set, h]

/-! ### Path lemmas for the handler -/

/-- On a cache hit the handler serves the cached payload with a freshly
computed `time`, truncates at read time, and leaves the cache unchanged. -/
theorem processRequest_hit (fmtTime : ℤ → Bool → String) (env : Env)
    (up : Upstream) (req : Req) (now : ℕ) (c : Cache) (d : DepResponse)
    (hsc : req.stationCode ≠ "")
    (hlim : ¬(limitTruthy req.limit = true ∧ jsToInteger req.limit < 1))
    (hhit : c.get ("departures_" ++ req.stationCode) now = some (.deps d)) :
    processRequest fmtTime env up req now c =
      (⟨200, .payload (fmtTime now true) d.stationName d.weather
        (applyLimit req.limit d.departures)⟩, c) := by
  unfold processRequest
  rw [if_neg hsc, if_neg hlim, hhit]

/-- On a cache miss with a well-formed upstream array and a successful
weather lookup, the handler assembles the full response, caches the
untruncated list for 60 seconds, and returns the truncated slice. -/
theorem processRequest_miss (fmtTime : ℤ → Bool → String) (env : Env)
    (up : Upstream) (req : Req) (now : ℕ) (c : Cache) (ts : List RawTrain)
    (name : String) (c1 : Cache) (w : Weather) (c2 : Cache)
    (hsc : req.stationCode ≠ "")
    (hlim : ¬(limitTruthy req.limit = true ∧ jsToInteger req.limit < 1))
    (hmiss : c.get ("departures_" ++ req.stationCode) now = none)
    (htr : up.trains = .ok (.arr ts))
    (hname : getStationName up c req.stationCode now = (name, c1))
    (hw : getWeather env up c1 "Bologna" now = .ok (w, c2)) :
    processRequest fmtTime env up req now c =
      (⟨200, .payload (fmtTime now true) name w
        (applyLimit req.limit (ts.map (mapTrain fmtTime)))⟩,
       c2.set ("departures_" ++ req.stationCode)
         (.deps ⟨name, w, ts.map (mapTrain fmtTime)⟩) 60 now) := by
  unfold processRequest
  rw [if_neg hsc, if_neg hlim, hmiss, htr, hname]
  simp [hw]

/-- On a cache miss with a non-array upstream payload, the handler returns
the bare empty JSON array with status 200 and touches nothing. -/
theorem processRequest_notArray (fmtTime : ℤ → Bool → String) (env : Env)
    (up : Upstream) (req : Req) (now : ℕ) (c : Cache)
    (hsc : req.stationCode ≠ "")
    (hlim : ¬(limitTruthy req.limit = true ∧ jsToInteger req.limit < 1))
    (hmiss : c.get ("departures_" ++ req.stationCode) now = none)
    (htr : up.trains = .ok .notArray) :
    processRequest fmtTime env up req now c = (⟨200, .rawArr []⟩, c) := by
  unfold processRequest
  rw [if_neg hsc, if_neg hlim, hmiss, htr]

/-! ### First-occurrence replacement lemmas -/

theorem replaceFirstList_no_occurrence (pat rep : List Char) :
    ∀ s : List Char, (∀ i, ¬ occursAt pat s i) → replaceFirstList pat rep s = s := by
  intro s
  induction s with
  | nil => intro _; rfl
  | cons c rest ih =>
    intro h
    unfold replaceFirstList
    rw [if_neg (show ¬(pat.isPrefixOf (c :: rest) = true) from h 0),
      ih (fun i hi => h (i + 1) hi)]

theorem replaceFirstList_first_occurrence (pat rep : List Char) (hpat : pat ≠ []) :
    ∀ (s : List Char) (i : ℕ), occursAt pat s i → (∀ j, j < i → ¬ occursAt pat s j) →
      replaceFirstList pat rep s = s.take i ++ rep ++ s.drop (i + pat.length) := by
  intro s
  induction s with
  | nil =>
    intro i hocc _
    exfalso
    cases pat with
    | nil => exact hpat rfl
    | cons p ps => simp [occursAt, List.isPrefixOf] at hocc
  | cons c rest ih =>
    intro i hocc hmin
    match i with
    | 0 =>
      have hp : pat.isPrefixOf (c :: rest) = true := hocc
      unfold replaceFirstList
      rw [if_pos hp]
      simp
    | (i' + 1) =>
      have hp : ¬(pat.isPrefixOf (c :: rest) = true) := hmin 0 (Nat.succ_pos i')
      unfold replaceFirstList
      rw [if_neg hp, ih i' hocc (fun j hj => hmin (j + 1) (Nat.succ_lt_succ hj))]
      rw [show i' + 1 + pat.length = (i' + pat.length) + 1 from by omega]
      simp

theorem isPrefixOf_single (c d : Char) (l : List Char) :
    [c].isPrefixOf (d :: l) = (c == d) := by
  simp [List.isPrefixOf]

theorem replaceFirstList_single_not_mem (c : Char) (rep : List Char) :
    ∀ xs : List Char, c ∉ xs → replaceFirstList [c] rep xs = xs := by
  intro xs
  induction xs with
  | nil => intro _; rfl
  | cons d rest ih =>
    intro h
    rw [List.mem_cons, not_or] at h
    unfold replaceFirstList
    rw [if_neg (by simp [isPrefixOf_single, h.1]), ih h.2]

/-- Replacing the first occurrence of a character in `xs ++ ys` happens
inside `xs` whenever the character does not occur in `ys` at all. -/
theorem replaceFirstList_append_right (c : Char) (rep : List Char) :
    ∀ xs ys : List Char, c ∉ ys →
      replaceFirstList [c] rep (xs ++ ys) = replaceFirstList [c] rep xs ++ ys := by
  intro xs ys hys
  induction xs with
  | nil =>
    simp [replaceFirstList_single_not_mem c rep ys hys, replaceFirstList]
  | cons d rest ih =>
    simp only [List.cons_append]
    unfold replaceFirstList
    by_cases hcd : c = d
    · rw [if_pos (by simp [isPrefixOf_single, hcd]),
        if_pos (by simp [isPrefixOf_single, hcd])]
      simp
    · rw [if_neg (by simp [isPrefixOf_single, hcd]),
        if_neg (by simp [isPrefixOf_single, hcd]), ih]
      simp

/-! ### The temperature string agrees with the spec's wording -/

theorem formatTemperature_eq_spec (t : ℚ) :
    formatTemperature t = specTemperature t := by
  unfold formatTemperature specTemperature jsReplaceFirst
  have h1 : (decimalOfTenths (roundTenths t) ++ "°C").toList
      = (decimalOfTenths (roundTenths t)).toList ++ "°C".toList :=
    String.data_append _ _
  rw [h1, show ".".toList = ['.'] from by decide,
    replaceFirstList_append_right '.' ",".toList _ _ (by decide)]
  rfl

/-! ### The delay string starts with a plus sign exactly for `ritardo ≥ 0` -/

theorem formatDelay_neg (d : ℤ) (h : d < 0) : formatDelay d = toString d := by
  unfold formatDelay
  rw [if_neg (by omega)]

theorem formatDelay_plus_iff (d : ℤ) :
    (formatDelay d).toList.head? = some '+' ↔ 0 ≤ d := by
  cases d with
  | ofNat m =>
    have h : formatDelay (Int.ofNat m) = "+" ++ toString (Int.ofNat m) := by
      unfold formatDelay
      rw [if_pos (by exact Int.ofNat_nonneg m)]
    rw [h]
    have hd : ("+" ++ toString (Int.ofNat m)).toList
        = '+' :: (toString (Int.ofNat m)).toList := by
      show ("+" ++ toString (Int.ofNat m)).data = _
      rw [String.data_append, show "+".data = ['+'] from by decide]
      rfl
    simp [hd, Int.ofNat_nonneg]
  | negSucc m =>
    have h : formatDelay (Int.negSucc m) = "-" ++ toString (m + 1) := by
      unfold formatDelay
      rw [if_neg (Int.negSucc_not_nonneg m).mp]
      rfl
    have hd : ("-" ++ toString (m + 1)).toList = '-' :: (toString (m + 1)).toList := by
      show ("-" ++ toString (m + 1)).data = _
      rw [String.data_append, show "-".data = ['-'] from by decide]
      rfl
    rw [h, hd]
    simp

/-- With a nonempty OpenWeather key and a successful fetch, `getWeather`
always succeeds. -/
theorem getWeather_ok (env : Env) (up : Upstream) (c : Cache) (city : String)
    (now : ℕ) (raw : WeatherRaw)
    (hkey : env.openweatherKey ≠ "")
    (hfetch : up.weather = .ok raw) :
    ∃ w c', getWeather env up c city now = .ok (w, c') := by
  unfold getWeather
  rcases hg : c.get ("weather_" ++ city) now with _ | v
  · simp [hg, hkey, hfetch]
  · cases v with
    | str s => simp [hg, hkey, hfetch]
    | weather w => exact ⟨w, c, rfl⟩
    | deps d => simp [hg, hkey, hfetch]

/-- The claim's three bad-limit shapes all make lodash `toInteger` yield a
value below 1. -/
theorem jsToInteger_lt_one (s : String)
    (h : jsToNumber s = none ∨ jsToNumber s = some 0 ∨
      ∃ q, jsToNumber s = some q ∧ q < 0) :
    jsToInteger (some s) < 1 := by
  unfold jsToInteger
  rcases h with h | h | ⟨q, hq, hneg⟩
  · simp [h]
  · simp [h, jsTrunc]
  · have h0 : (0 : ℤ) ≤ ⌊-q⌋ := Int.floor_nonneg.mpr (by linarith)
    simp only [hq]
    unfold jsTrunc
    rw [if_pos hneg]
    omega

/-! ### Claim C1 -/

/-- C1 counterexample: on a cache miss with a non-array upstream payload the
handler does answer HTTP 200, but the body is the bare empty JSON array
(`res.json([])`), which has no `departures` field at all — so the response
is not an object whose `departures` field is the empty list. -/
theorem claim1_counterexample :
    (handler f0 env0 upNA req0 0 Cache.empty).1.status = 200 ∧
    bodyDeparturesField (handler f0 env0 upNA req0 0 Cache.empty).1.body = none :=
  ⟨rfl, rfl⟩

/-- C1 (amended): for every request with no cached entry whose transit
upstream returns a non-array payload, the handler responds HTTP 200 with a
body that is the bare empty JSON array (not an object with a `departures`
field, and not an error response), and leaves the cache unchanged. -/
theorem claim1_amended (fmtTime : ℤ → Bool → String) (env : Env) (up : Upstream)
    (req : Req) (now : ℕ) (c : Cache)
    (hkey : checkApiKey env.apiKey req.key = true)
    (hsc : req.stationCode ≠ "")
    (hlim : ¬(limitTruthy req.limit = true ∧ jsToInteger req.limit < 1))
    (hmiss : c.get ("departures_" ++ req.stationCode) now = none)
    (htr : up.trains = .ok .notArray) :
    handler fmtTime env up req now c = (⟨200, .rawArr []⟩, c) := by
  unfold handler
  rw [if_pos hkey]
  exact processRequest_notArray fmtTime env up req now c hsc hlim hmiss htr

theorem claim1_witness :
    handler f0 env0 upNA req0 0 Cache.empty = (⟨200, .rawArr []⟩, Cache.empty) :=
  claim1_amended f0 env0 upNA req0 0 Cache.empty rfl (by decide) (by decide) rfl rfl

/-! ### Claim C2 -/

/-- C2: on the cache-miss mapping, the formatted delay string is the source
delay prefixed with `+` exactly when the delay is non-negative (zero
included), and the bare negative numeral otherwise; in particular source
delays 5 and -2 map to `"+5"` and `"-2"`. -/
theorem claim2_delay (fmtTime : ℤ → Bool → String) (t : RawTrain) :
    (0 ≤ t.ritardo → (mapTrain fmtTime t).delay = "+" ++ toString t.ritardo) ∧
    (t.ritardo < 0 → (mapTrain fmtTime t).delay = toString t.ritardo) ∧
    ((mapTrain fmtTime t).delay.toList.head? = some '+' ↔ 0 ≤ t.ritardo) ∧
    (mapTrain fmtTime t5).delay = "+5" ∧
    (mapTrain fmtTime tm2).delay = "-2" := by
  refine ⟨?_, ?_, ?_, rfl, rfl⟩
  · intro h
    show formatDelay t.ritardo = _
    unfold formatDelay
    rw [if_pos h]
  · intro h
    exact formatDelay_neg t.ritardo h
  · exact formatDelay_plus_iff t.ritardo

theorem claim2_witness :
    (mapTrain f0 t5).delay = "+" ++ toString t5.ritardo ∧
    (mapTrain f0 tm2).delay = toString tm2.ritardo :=
  ⟨(claim2_delay f0 t5).1 (by decide), (claim2_delay f0 tm2).2.1 (by decide)⟩

/-! ### Claim C3 -/

/-- C3: on a cache miss for a non-empty station code with a well-formed
upstream array of length K, the response's `departures` has length
`min K limit` when a valid `limit ≥ 1` is supplied, and length K when no
`limit` is supplied. -/
theorem claim3_departures_length (fmtTime : ℤ → Bool → String) (env : Env)
    (up : Upstream) (req : Req) (now : ℕ) (c : Cache) (ts : List RawTrain)
    (name : String) (c1 : Cache) (w : Weather) (c2 : Cache)
    (hkey : checkApiKey env.apiKey req.key = true)
    (hsc : req.stationCode ≠ "")
    (hmiss : c.get ("departures_" ++ req.stationCode) now = none)
    (htr : up.trains = .ok (.arr ts))
    (hname : getStationName up c req.stationCode now = (name, c1))
    (hw : getWeather env up c1 "Bologna" now = .ok (w, c2))
    (hlim : req.limit = none ∨
      ∃ s L, req.limit = some s ∧ s ≠ "" ∧ jsToInteger (some s) = (L : ℤ) ∧ 1 ≤ L) :
    ∃ time deps,
      (handler fmtTime env up req now c).1 = ⟨200, .payload time name w deps⟩ ∧
      deps.length =
        (if req.limit = none then ts.length
         else min ts.length (jsToInteger req.limit).toNat) := by
  unfold handler
  rw [if_pos hkey]
  rcases hlim with hnone | ⟨s, L, hs, hs0, hL, hL1⟩
  · have hlim' : ¬(limitTruthy req.limit = true ∧ jsToInteger req.limit < 1) := by
      rw [hnone]
      simp [limitTruthy]
    rw [processRequest_miss fmtTime env up req now c ts name c1 w c2 hsc hlim'
      hmiss htr hname hw]
    refine ⟨fmtTime now true, _, rfl, ?_⟩
    rw [hnone]
    simp [applyLimit, jsToInteger]
  · have hlim' : ¬(limitTruthy req.limit = true ∧ jsToInteger req.limit < 1) := by
      rw [hs, hL]
      intro hcon
      omega
    rw [processRequest_miss fmtTime env up req now c ts name c1 w c2 hsc hlim'
      hmiss htr hname hw]
    refine ⟨fmtTime now true, _, rfl, ?_⟩
    rw [hs]
    unfold applyLimit
    rw [hL, if_pos (by exact_mod_cast hL1)]
    simp [Nat.min_comm]

theorem claim3_witness :
    ∃ time deps,
      (handler f0 env0 up0 ⟨"S01700", some "2", none⟩ 0 Cache.empty).1
        = ⟨200, .payload time "S01700" w0 deps⟩ ∧
      deps.length =
        (if (some "2" : Option String) = none then ([t5, tm2] : List RawTrain).length
         else min ([t5, tm2] : List RawTrain).length
           (jsToInteger (some "2")).toNat) :=
  claim3_departures_length f0 env0 up0 ⟨"S01700", some "2", none⟩ 0 Cache.empty
    [t5, tm2] "S01700" Cache.empty w0
    (Cache.set Cache.empty "weather_Bologna" (.weather w0) 300 0)
    rfl (by decide) rfl rfl rfl rfl
    (Or.inr ⟨"2", 2, rfl, by decide, by decide, by decide⟩)

/-! ### Claim C4 -/

/-- C4: a present `limit` whose value is `0`, a negative number, or a
non-numeric string makes the handler answer HTTP 400 with the validation
error, leave the cache unchanged, and consult no upstream at all (the
outcome is independent of every upstream result). -/
theorem claim4_invalid_limit (fmtTime : ℤ → Bool → String) (env : Env)
    (up : Upstream) (req : Req) (now : ℕ) (c : Cache) (s : String)
    (hkey : checkApiKey env.apiKey req.key = true)
    (hsc : req.stationCode ≠ "")
    (hls : req.limit = some s)
    (hs0 : s ≠ "")
    (hbad : jsToNumber s = none ∨ jsToNumber s = some 0 ∨
      ∃ q, jsToNumber s = some q ∧ q < 0) :
    handler fmtTime env up req now c
      = (⟨400, .errObj "Limit must be a positive number."⟩, c) ∧
    ∀ up', handler fmtTime env up' req now c = handler fmtTime env up req now c := by
  have hlt : jsToInteger req.limit < 1 := by
    rw [hls]
    exact jsToInteger_lt_one s hbad
  have htru : limitTruthy req.limit = true := by
    rw [hls]
    simp [limitTruthy, hs0]
  have key : ∀ u : Upstream, handler fmtTime env u req now c
      = (⟨400, .errObj "Limit must be a positive number."⟩, c) := by
    intro u
    unfold handler
    rw [if_pos hkey]
    unfold processRequest
    rw [if_neg hsc, if_pos ⟨htru, hlt⟩]
  exact ⟨key up, fun up' => (key up').trans (key up).symm⟩

theorem claim4_witness :
    handler f0 env0 up0 ⟨"S01700", some "0", none⟩ 0 Cache.empty
      = (⟨400, .errObj "Limit must be a positive number."⟩, Cache.empty) :=
  (claim4_invalid_limit f0 env0 up0 ⟨"S01700", some "0", none⟩ 0 Cache.empty "0"
    rfl (by decide) rfl (by decide) (Or.inr (Or.inl (by decide)))).1

/-! ### Two consecutive requests: shared helper for the cache claims -/

/-- Helper: a miss by the first request writes the full list under the
station key; a second request inside the TTL window hits that entry, slices
it per its own limit, and leaves the cache untouched. -/
theorem handler_two_requests (fmtTime : ℤ → Bool → String) (env : Env)
    (up up2 : Upstream) (req1 req2 : Req) (now now2 : ℕ) (c : Cache)
    (ts : List RawTrain) (name : String) (c1 : Cache) (w : Weather) (c2 : Cache)
    (hkey1 : checkApiKey env.apiKey req1.key = true)
    (hkey2 : checkApiKey env.apiKey req2.key = true)
    (hsc : req1.stationCode ≠ "")
    (hsame : req2.stationCode = req1.stationCode)
    (hmiss : c.get ("departures_" ++ req1.stationCode) now = none)
    (htr : up.trains = .ok (.arr ts))
    (hname : getStationName up c req1.stationCode now = (name, c1))
    (hw : getWeather env up c1 "Bologna" now = .ok (w, c2))
    (hlim1 : ¬(limitTruthy req1.limit = true ∧ jsToInteger req1.limit < 1))
    (hlim2 : ¬(limitTruthy req2.limit = true ∧ jsToInteger req2.limit < 1))
    (hwin : now2 ≤ now + 60 * 1000) :
    (handler fmtTime env up req1 now c).2.get
        ("departures_" ++ req1.stationCode) now2
      = some (.deps ⟨name, w, ts.map (mapTrain fmtTime)⟩) ∧
    (handler fmtTime env up req1 now c).1
      = ⟨200, .payload (fmtTime now true) name w
          (applyLimit req1.limit (ts.map (mapTrain fmtTime)))⟩ ∧
    handler fmtTime env up2 req2 now2 (handler fmtTime env up req1 now c).2
      = (⟨200, .payload (fmtTime now2 true) name w
          (applyLimit req2.limit (ts.map (mapTrain fmtTime)))⟩,
         (handler fmtTime env up req1 now c).2) := by
  have h1 : handler fmtTime env up req1 now c
      = (⟨200, .payload (fmtTime now true) name w
          (applyLimit req1.limit (ts.map (mapTrain fmtTime)))⟩,
         c2.set ("departures_" ++ req1.stationCode)
           (.deps ⟨name, w, ts.map (mapTrain fmtTime)⟩) 60 now) := by
    unfold handler
    rw [if_pos hkey1]
    exact processRequest_miss fmtTime env up req1 now c ts name c1 w c2 hsc hlim1
      hmiss htr hname hw
  have hget : (c2.set ("departures_" ++ req1.stationCode)
      (.deps ⟨name, w, ts.map (mapTrain fmtTime)⟩) 60 now).get
        ("departures_" ++ req1.stationCode) now2
      = some (.deps ⟨name, w, ts.map (mapTrain fmtTime)⟩) :=
    Cache.get_set_same c2 _ _ 60 now now2 hwin
  rw [h1]
  refine ⟨hget, rfl, ?_⟩
  unfold handler
  rw [if_pos hkey2]
  have hsc2 : req2.stationCode ≠ "" := by
    rw [hsame]
    exact hsc
  have hhit : (c2.set ("departures_" ++ req1.stationCode)
      (.deps ⟨name, w, ts.map (mapTrain fmtTime)⟩) 60 now).get
        ("departures_" ++ req2.stationCode) now2
      = some (.deps ⟨name, w, ts.map (mapTrain fmtTime)⟩) := by
    rw [hsame]
    exact hget
  exact processRequest_hit fmtTime env up2 req2 now2 _ _ hsc2 hlim2 hhit

/-! ### Claim C5 -/

/-- C5: truncation is never baked into the cached value.  On a miss the full
untruncated list is written under the station-code key; a second caller with
its own limit within the 60-second window hits that single entry, gets its
own slice truncated at read time, and the cached entry (indeed the whole
cache) is not changed by the hit. -/
theorem claim5_shared_cache_entry (fmtTime : ℤ → Bool → String) (env : Env)
    (up up2 : Upstream) (req1 req2 : Req) (now now2 : ℕ) (c : Cache)
    (ts : List RawTrain) (name : String) (c1 : Cache) (w : Weather) (c2 : Cache)
    (hkey1 : checkApiKey env.apiKey req1.key = true)
    (hkey2 : checkApiKey env.apiKey req2.key = true)
    (hsc : req1.stationCode ≠ "")
    (hsame : req2.stationCode = req1.stationCode)
    (hmiss : c.get ("departures_" ++ req1.stationCode) now = none)
    (htr : up.trains = .ok (.arr ts))
    (hname : getStationName up c req1.stationCode now = (name, c1))
    (hw : getWeather env up c1 "Bologna" now = .ok (w, c2))
    (hlim1 : ¬(limitTruthy req1.limit = true ∧ jsToInteger req1.limit < 1))
    (hlim2 : ¬(limitTruthy req2.limit = true ∧ jsToInteger req2.limit < 1))
    (hwin : now2 ≤ now + 60 * 1000) :
    (handler fmtTime env up req1 now c).2.get
        ("departures_" ++ req1.stationCode) now2
      = some (.deps ⟨name, w, ts.map (mapTrain fmtTime)⟩) ∧
    (handler fmtTime env up req1 now c).1
      = ⟨200, .payload (fmtTime now true) name w
          (applyLimit req1.limit (ts.map (mapTrain fmtTime)))⟩ ∧
    handler fmtTime env up2 req2 now2 (handler fmtTime env up req1 now c).2
      = (⟨200, .payload (fmtTime now2 true) name w
          (applyLimit req2.limit (ts.map (mapTrain fmtTime)))⟩,
         (handler fmtTime env up req1 now c).2) :=
  handler_two_requests fmtTime env up up2 req1 req2 now now2 c ts name c1 w c2
    hkey1 hkey2 hsc hsame hmiss htr hname hw hlim1 hlim2 hwin

theorem claim5_witness :
    (handler f0 env0 up0 ⟨"S01700", some "1", none⟩ 0 Cache.empty).2.get
        ("departures_" ++ "S01700") 30000
      = some (.deps ⟨"S01700", w0, [t5, tm2].map (mapTrain f0)⟩) ∧
    (handler f0 env0 up0 ⟨"S01700", some "1", none⟩ 0 Cache.empty).1
      = ⟨200, .payload (f0 0 true) "S01700" w0
          (applyLimit (some "1") ([t5, tm2].map (mapTrain f0)))⟩ ∧
    handler f0 env0 up0 ⟨"S01700", some "2", none⟩ 30000
        (handler f0 env0 up0 ⟨"S01700", some "1", none⟩ 0 Cache.empty).2
      = (⟨200, .payload (f0 30000 true) "S01700" w0
          (applyLimit (some "2") ([t5, tm2].map (mapTrain f0)))⟩,
         (handler f0 env0 up0 ⟨"S01700", some "1", none⟩ 0 Cache.empty).2) :=
  claim5_shared_cache_entry f0 env0 up0 up0
    ⟨"S01700", some "1", none⟩ ⟨"S01700", some "2", none⟩ 0 30000 Cache.empty
    [t5, tm2] "S01700" Cache.empty w0
    (Cache.set Cache.empty "weather_Bologna" (.weather w0) 300 0)
    rfl rfl (by decide) rfl rfl rfl rfl rfl
    (by decide) (by decide) (by omega)

/-! ### Claim C6 -/

/-- C6: when a second request for the same station arrives within the
60-second window (so it hits the cache), its `stationName`, `weather` and
`departures` agree with the first response's (modulo each request's own
`limit` truncation of one shared full list); the `time` field of each
response is freshly computed from that response's own clock reading. -/
theorem claim6_cached_fields_stable (fmtTime : ℤ → Bool → String) (env : Env)
    (up up2 : Upstream) (req1 req2 : Req) (now now2 : ℕ) (c : Cache)
    (ts : List RawTrain) (name : String) (c1 : Cache) (w : Weather) (c2 : Cache)
    (hkey1 : checkApiKey env.apiKey req1.key = true)
    (hkey2 : checkApiKey env.apiKey req2.key = true)
    (hsc : req1.stationCode ≠ "")
    (hsame : req2.stationCode = req1.stationCode)
    (hmiss : c.get ("departures_" ++ req1.stationCode) now = none)
    (htr : up.trains = .ok (.arr ts))
    (hname : getStationName up c req1.stationCode now = (name, c1))
    (hw : getWeather env up c1 "Bologna" now = .ok (w, c2))
    (hlim1 : ¬(limitTruthy req1.limit = true ∧ jsToInteger req1.limit < 1))
    (hlim2 : ¬(limitTruthy req2.limit = true ∧ jsToInteger req2.limit < 1))
    (hwin : now2 ≤ now + 60 * 1000) :
    ∃ time1 time2 sn w' deps1 deps2 full,
      (handler fmtTime env up req1 now c).1 = ⟨200, .payload time1 sn w' deps1⟩ ∧
      (handler fmtTime env up2 req2 now2 (handler fmtTime env up req1 now c).2).1
        = ⟨200, .payload time2 sn w' deps2⟩ ∧
      deps1 = applyLimit req1.limit full ∧
      deps2 = applyLimit req2.limit full ∧
      time1 = fmtTime now true ∧
      time2 = fmtTime now2 true := by
  obtain ⟨-, h1, h2⟩ := handler_two_requests fmtTime env up up2 req1 req2 now now2 c
    ts name c1 w c2 hkey1 hkey2 hsc hsame hmiss htr hname hw hlim1 hlim2 hwin
  exact ⟨fmtTime now true, fmtTime now2 true, name, w, _, _,
    ts.map (mapTrain fmtTime), h1, by rw [h2], rfl, rfl, rfl, rfl⟩

theorem claim6_witness :
    ∃ time1 time2 sn w' deps1 deps2 full,
      (handler f0 env0 up0 ⟨"S01700", some "1", none⟩ 0 Cache.empty).1
        = ⟨200, .payload time1 sn w' deps1⟩ ∧
      (handler f0 env0 up0 ⟨"S01700", some "2", none⟩ 30000
          (handler f0 env0 up0 ⟨"S01700", some "1", none⟩ 0 Cache.empty).2).1
        = ⟨200, .payload time2 sn w' deps2⟩ ∧
      deps1 = applyLimit (some "1") full ∧
      deps2 = applyLimit (some "2") full ∧
      time1 = f0 0 true ∧
      time2 = f0 30000 true :=
  claim6_cached_fields_stable f0 env0 up0 up0 ⟨"S01700", some "1", none⟩
    ⟨"S01700", some "2", none⟩ 0 30000 Cache.empty [t5, tm2] "S01700"
    Cache.empty w0 (Cache.set Cache.empty "weather_Bologna" (.weather w0) 300 0)
    rfl rfl (by decide) rfl rfl rfl rfl rfl (by decide) (by decide) (by omega)

/-! ### Claim C7 -/

/-- C7: with a nonempty configured API key, any request whose `key` query
parameter is missing or different is answered HTTP 401 with the cache
untouched and nothing else run; with no configured key, the gate is a no-op
and the request proceeds to normal processing. -/
theorem claim7_api_key_gate (fmtTime : ℤ → Bool → String) (env : Env)
    (up : Upstream) (req : Req) (now : ℕ) (c : Cache) :
    (env.apiKey ≠ "" →
      (req.key = none ∨ ∃ k, req.key = some k ∧ k ≠ env.apiKey) →
      handler fmtTime env up req now c
        = (⟨401, .errObj "Invalid or missing API key."⟩, c)) ∧
    (env.apiKey = "" →
      handler fmtTime env up req now c = processRequest fmtTime env up req now c) := by
  constructor
  · intro hset hkey
    have hc : checkApiKey env.apiKey req.key = false := by
      unfold checkApiKey
      rw [if_neg hset]
      rcases hkey with h | ⟨k, hk, hne⟩
      · rw [h]
      · rw [hk]
        simp [hne]
    unfold handler
    rw [if_neg (by simp [hc])]
  · intro h0
    have hc : checkApiKey env.apiKey req.key = true := by
      unfold checkApiKey
      rw [if_pos h0]
    unfold handler
    rw [if_pos hc]

theorem claim7_witness :
    handler f0 envAuth up0 req0 0 Cache.empty
      = (⟨401, .errObj "Invalid or missing API key."⟩, Cache.empty) :=
  (claim7_api_key_gate f0 envAuth up0 req0 0 Cache.empty).1 (by decide) (Or.inl rfl)

/-! ### Claim C8 -/

/-- When resolution fails (and nothing is cached for the station), the
`catch` in `getStationName` returns the raw station code and writes
nothing. -/
theorem getStationName_fallback (up : Upstream) (c : Cache) (code : String)
    (now : ℕ)
    (hnc : c.get ("station_name_" ++ code) now = none)
    (hfail : stationLookupFailed up) :
    getStationName up c code now = (code, c) := by
  unfold getStationName
  rw [hnc]
  cases hr : up.region with
  | error e => rfl
  | ok ro =>
    cases ro with
    | none => rfl
    | some r =>
      cases hd : up.details with
      | error e => rfl
      | ok dopt =>
        cases dopt with
        | none => rfl
        | some nm =>
          exfalso
          rcases hfail with (h | h) | (h | h)
          · rw [hr] at h
            exact Except.noConfusion h
          · rw [hr] at h
            simp at h
          · rw [hd] at h
            exact Except.noConfusion h
          · rw [hd] at h
            simp at h

/-- C8: when station-name resolution fails, `getStationName` returns the raw
station code as the display-name fallback, and a request that is otherwise
healthy still completes with HTTP 200 (carrying that fallback name) instead
of an error status. -/
theorem claim8_station_name_fallback (fmtTime : ℤ → Bool → String) (env : Env)
    (up : Upstream) (req : Req) (now : ℕ) (c : Cache) (ts : List RawTrain)
    (w : Weather) (c2 : Cache)
    (hnc : c.get ("station_name_" ++ req.stationCode) now = none)
    (hfail : stationLookupFailed up) :
    getStationName up c req.stationCode now = (req.stationCode, c) ∧
    (checkApiKey env.apiKey req.key = true →
      req.stationCode ≠ "" →
      ¬(limitTruthy req.limit = true ∧ jsToInteger req.limit < 1) →
      c.get ("departures_" ++ req.stationCode) now = none →
      up.trains = .ok (.arr ts) →
      getWeather env up c "Bologna" now = .ok (w, c2) →
      (handler fmtTime env up req now c).1
        = ⟨200, .payload (fmtTime now true) req.stationCode w
            (applyLimit req.limit (ts.map (mapTrain fmtTime)))⟩) := by
  have hfb := getStationName_fallback up c req.stationCode now hnc hfail
  refine ⟨hfb, ?_⟩
  intro hkey hsc hlim hmiss htr hw
  unfold handler
  rw [if_pos hkey, processRequest_miss fmtTime env up req now c ts
    req.stationCode c w c2 hsc hlim hmiss htr hfb hw]

theorem claim8_witness :
    getStationName up0 Cache.empty "S01700" 0 = ("S01700", Cache.empty) ∧
    (handler f0 env0 up0 req0 0 Cache.empty).1
      = ⟨200, .payload (f0 0 true) "S01700" w0
          (applyLimit none ([t5, tm2].map (mapTrain f0)))⟩ :=
  have h := claim8_station_name_fallback f0 env0 up0 req0 0 Cache.empty
    [t5, tm2] w0 (Cache.set Cache.empty "weather_Bologna" (.weather w0) 300 0)
    rfl (Or.inl (Or.inl rfl))
  ⟨h.1, h.2 rfl (by decide) (by decide) rfl rfl rfl⟩

/-! ### Claim C9 -/

/-- C9: a successful weather fetch yields a `WeatherSnapshot` whose
`temperature` is exactly the upstream Celsius value rounded to one decimal
place, with the decimal point replaced by the Italian comma and the `°C`
suffix appended. -/
theorem claim9_temperature_format (env : Env) (up : Upstream) (c : Cache)
    (city : String) (now : ℕ) (raw : WeatherRaw)
    (hkey : env.openweatherKey ≠ "")
    (hmiss : c.get ("weather_" ++ city) now = none)
    (hfetch : up.weather = .ok raw) :
    ∃ c', getWeather env up c city now
      = .ok (⟨specTemperature raw.temp, raw.description⟩, c') := by
  refine ⟨c.set ("weather_" ++ city)
    (.weather ⟨formatTemperature raw.temp, raw.description⟩) 300 now, ?_⟩
  simp [getWeather, hmiss, hkey, hfetch, formatTemperature_eq_spec]

theorem claim9_witness :
    ∃ c', getWeather env0 up0 Cache.empty "Bologna" 0
      = .ok (⟨specTemperature raw0.temp, raw0.description⟩, c') :=
  claim9_temperature_format env0 up0 Cache.empty "Bologna" 0 raw0
    (by decide) rfl rfl

/-! ### Claim C10 -/

/-- C10: the `type` field of a mapped departure is `compNumeroTreno` with
only its first occurrence of `"REG"` replaced by `"R"`; a record whose
`compNumeroTreno` has no occurrence of `"REG"` passes through unchanged. -/
theorem claim10_type_replacement (fmtTime : ℤ → Bool → String) (t : RawTrain) :
    ((∀ i, ¬ occursAt "REG".toList t.compNumeroTreno.toList i) →
      (mapTrain fmtTime t).type = t.compNumeroTreno) ∧
    (∀ i, occursAt "REG".toList t.compNumeroTreno.toList i →
      (∀ j, j < i → ¬ occursAt "REG".toList t.compNumeroTreno.toList j) →
      (mapTrain fmtTime t).type
        = ⟨t.compNumeroTreno.toList.take i
            ++ 'R' :: t.compNumeroTreno.toList.drop (i + 3)⟩) := by
  constructor
  · intro h
    show jsReplaceFirst t.compNumeroTreno "REG" "R" = t.compNumeroTreno
    unfold jsReplaceFirst
    rw [replaceFirstList_no_occurrence "REG".toList "R".toList
      t.compNumeroTreno.toList h]
    rfl
  · intro i hocc hmin
    show jsReplaceFirst t.compNumeroTreno "REG" "R"
      = ⟨t.compNumeroTreno.toList.take i
          ++ 'R' :: t.compNumeroTreno.toList.drop (i + 3)⟩
    unfold jsReplaceFirst
    rw [replaceFirstList_first_occurrence "REG".toList "R".toList (by decide)
      t.compNumeroTreno.toList i hocc hmin]
    apply congrArg
    rw [show "REG".toList.length = 3 from rfl, show "R".toList = ['R'] from rfl]
    simp

theorem claim10_witness :
    (mapTrain f0 t5).type
      = ⟨"REG 2463".toList.take 0 ++ 'R' :: "REG 2463".toList.drop (0 + 3)⟩ :=
  (claim10_type_replacement f0 t5).2 0 (by decide)
    (fun j hj => absurd hj (Nat.not_lt_zero j))

end TrainApi
